import Mathlib

/-!
Shallow embedding of the request-dispatch core of `src/chatbot_app.py`
(class `ChatBot`: `check_model`, `get_response`; class `ChatWorker`).

External effects are modelled as explicit environment values:
* a subprocess call (`subprocess.run` / `Popen` + `communicate`) either
  completes with an exit code, stdout and stderr, or raises
  `TimeoutExpired`, `FileNotFoundError`, or some other exception;
* `requests.post` either yields an HTTP response or raises (connection
  error, request timeout, ... — all `Exception` subclasses);
* `response.json()` either yields a JSON object (modelled as an
  association list of string-valued fields, which covers every field the
  code reads) or raises on a malformed body (modelled as `none`).

The dispatch result is tagged with the error taxonomy of the spec
(`Success` / `Failure(kind, detail)`); each `return` site of
`get_response` keeps its exact Python message string, and the tag records
which branch produced it.  A trace of transport attempts (with the
timeout argument passed to each) is returned alongside the result so that
"which transport ran, with what deadline" is provable.
-/

namespace Chatbot

/-- Completed subprocess call: exit code, captured stdout and stderr. -/
structure ProcResult where
  returncode : Int
  stdout : String
  stderr : String
deriving DecidableEq, Repr

/-- Outcome of a subprocess call: completion, or one of the exceptions the
Python code distinguishes (`subprocess.TimeoutExpired`,
`FileNotFoundError`, any other `Exception`). -/
inductive ProcOutcome where
  | completed (r : ProcResult)
  | timeoutExpired
  | fileNotFound
  | otherError (msg : String)
deriving DecidableEq, Repr

/-- HTTP response from `requests.post`: status code, parsed JSON body
(`none` models a body on which `.json()` raises), raw text. -/
structure HttpResponse where
  statusCode : Nat
  payload : Option (List (String × String))
  text : String
deriving DecidableEq, Repr

/-- Outcome of `requests.post`: a response, or a raised exception
(connection refused, request timeout, ...). -/
inductive HttpOutcome where
  | response (r : HttpResponse)
  | connectionError (msg : String)
deriving DecidableEq, Repr

/-- The environment one `get_response` call runs in: the outcome of the
`ollama list` preflight, whether `import requests` succeeds, the outcome
of the HTTP call were it issued, and the outcome of the
`ollama run` subprocess were it started. -/
structure Env where
  listOutcome : ProcOutcome
  requestsAvailable : Bool
  http : HttpOutcome
  runOutcome : ProcOutcome
deriving DecidableEq, Repr

/-- Configuration of `ChatBot.__init__`: fixed model name, dispatch
timeout in seconds (default 120). -/
structure ChatBot where
  model_name : String
  timeout_seconds : Nat
deriving DecidableEq, Repr

/-- The `ChatBot()` built by the application: `model_name = "llama3.2"`,
`timeout_seconds = 120`. -/
def defaultBot : ChatBot := { model_name := "llama3.2", timeout_seconds := 120 }

/-- Error taxonomy of the spec (§7). -/
inductive ErrorKind where
  | modelUnavailable
  | engineNotFound
  | timeout
  | processError
  | emptyResponse
  | unexpectedFormat
  | unknown
deriving DecidableEq, Repr

/-- Normalized dispatch result (spec §3 `DispatchResult`).  In the Python
source both variants are plain strings; the tag records which `return`
branch of `get_response` produced the string. -/
inductive DispatchResult where
  | success (text : String)
  | failure (kind : ErrorKind) (detail : String)
deriving DecidableEq, Repr

/-- One transport attempt, carrying the timeout argument (in seconds)
passed to it: `requests.post(..., timeout=...)` for the structured
transport, `process.communicate(..., timeout=...)` for the process
transport. -/
inductive Attempt where
  | structured (timeoutArg : Nat)
  | processRun (timeoutArg : Nat)
deriving DecidableEq, Repr

/-- Exceptions that can escape the body of `get_response` to its outer
handlers (they can only arise from the `Popen`/`communicate` part; every
exception of the structured block is caught inside it). -/
inductive PyExn where
  | timeoutExpired
  | fileNotFound
  | other (msg : String)
deriving DecidableEq, Repr

/-- Drop leading whitespace characters from a character list. -/
def dropLeadingWs : List Char → List Char
  | [] => []
  | c :: cs => if c.isWhitespace then dropLeadingWs cs else c :: cs

/-- Python `str.strip()`: remove leading and trailing whitespace. -/
def pyStrip (s : String) : String :=
  String.mk ((dropLeadingWs (dropLeadingWs s.data).reverse).reverse)

/-- Whether the first list is a prefix of the second. -/
def isPrefixList : List Char → List Char → Bool
  | [], _ => true
  | _ :: _, [] => false
  | a :: as, b :: bs => a = b && isPrefixList as bs

/-- Whether `needle` occurs as a contiguous sublist of the second list. -/
def containsList (needle : List Char) : List Char → Bool
  | [] => isPrefixList needle []
  | c :: cs => isPrefixList needle (c :: cs) || containsList needle cs

/-- Python substring test `needle in hay` (for the empty needle Python
answers `True`, as does this definition). -/
def strContains (hay needle : String) : Bool :=
  containsList needle.data hay.data

/-- `ChatBot.check_model` (lines 35-48): run `ollama list`; on exit 0
return whether `model_name` occurs in stdout; on non-zero exit print a
warning and fall off the function (Python returns `None`, modelled as
`none`); on any exception return `False`. -/
def check_model (bot : ChatBot) (listOutcome : ProcOutcome) : Option Bool :=
  match listOutcome with
  | .completed r =>
      if r.returncode = 0 then
        if strContains r.stdout bot.model_name then some true else some false
      else
        none
  | .timeoutExpired => some false
  | .fileNotFound => some false
  | .otherError _ => some false

/-- Python truthiness of `check_model`'s result: `None` and `False` are
falsy, `True` is truthy. -/
def isTruthy : Option Bool → Bool
  | some true => true
  | some false => false
  | none => false

/-- The f-string returned when the model is unavailable (line 55). -/
def modelUnavailableMessage (bot : ChatBot) : String :=
  "Error: Model \x27" ++ bot.model_name ++ "\x27 is not available. Please run \x27ollama pull "
    ++ bot.model_name ++ "\x27 to download it."

/-- The message of the `subprocess.TimeoutExpired` handler
(lines 110-112); `timeout_minutes = timeout_seconds // 60`. -/
def timeoutMessage (bot : ChatBot) : String :=
  let timeout_minutes := bot.timeout_seconds / 60
  "The request is taking longer than expected (over " ++ toString timeout_minutes
    ++ " minutes). This can happen with complex or very long prompts. You can try:\n\n1. Breaking your question into smaller parts\n2. Waiting a bit longer and trying again\n3. Using a shorter, more specific prompt"

/-- Message of the `except Exception` inner handler is only printed; the
structured block (lines 58-84) either `return`s a result (`some`) or
falls through to the subprocess method (`none`):
* any exception of `requests.post` (connection error, timeout, ...) is
  caught by `except Exception as api_error` → fall through;
* non-200 status → print, fall through;
* 200 with a body on which `.json()` raises → caught → fall through;
* 200 with a `response` field → `return result["response"].strip()`;
* 200 without a `response` field → `return` the unexpected-format
  message directly. -/
def structuredAttempt (h : HttpOutcome) : Option DispatchResult :=
  match h with
  | .connectionError _ => none
  | .response r =>
      if r.statusCode = 200 then
        match r.payload with
        | none => none
        | some obj =>
            match obj.lookup "response" with
            | some v => some (.success (pyStrip v))
            | none => some (.failure .unexpectedFormat
                "Received unexpected response format from Llama API.")
      else none

/-- Body of `ChatBot.get_response` inside the outer `try` (lines 52-108),
together with the transport-attempt trace.  Exceptions of the
`Popen`/`communicate` part escape as `.error` (carrying the trace at the
point they were raised) to be handled by `get_response`'s outer
handlers. -/
def dispatch_body (bot : ChatBot) (env : Env) (user_message : String) :
    Except (PyExn × List Attempt) (DispatchResult × List Attempt) :=
  if isTruthy (check_model bot env.listOutcome) = false then
    .ok (.failure .modelUnavailable (modelUnavailableMessage bot), [])
  else
    let structuredTrace : List Attempt :=
      if env.requestsAvailable then [.structured bot.timeout_seconds] else []
    match (if env.requestsAvailable then structuredAttempt env.http else none) with
    | some r => .ok (r, structuredTrace)
    | none =>
        let tr := structuredTrace ++ [.processRun bot.timeout_seconds]
        match env.runOutcome with
        | .completed p =>
            if p.returncode ≠ 0 then
              .ok (.failure .processError
                    ("Error running Llama model: "
                      ++ (if p.stderr ≠ "" then pyStrip p.stderr else "Unknown error")), tr)
            else if pyStrip p.stdout = "" then
              .ok (.failure .emptyResponse
                    "I\x27m sorry, I couldn\x27t generate a response right now. Please try again.", tr)
            else
              .ok (.success (pyStrip p.stdout), tr)
        | .timeoutExpired => .error (.timeoutExpired, tr)
        | .fileNotFound => .error (.fileNotFound, tr)
        | .otherError m => .error (.other m, tr)

/-- The outer `except` clauses of `get_response` (lines 110-116): map each
escaped exception to a returned message. -/
def handleExn (bot : ChatBot) : PyExn → DispatchResult
  | .timeoutExpired => .failure .timeout (timeoutMessage bot)
  | .fileNotFound => .failure .engineNotFound
      "Error: Ollama is not installed or not found in PATH. Please install Ollama first."
  | .other m => .failure .unknown
      ("I encountered an error: " ++ m ++ ". Please try again.")

/-- `ChatBot.get_response` (lines 50-116): the body under the outer `try`,
with every escaped exception converted to a returned message by the
`except` clauses. -/
def get_response (bot : ChatBot) (env : Env) (user_message : String) :
    DispatchResult × List Attempt :=
  match dispatch_body bot env user_message with
  | .ok r => r
  | .error e => (handleExn bot e.1, e.2)

/-- Whether an attempt is a process-transport attempt. -/
def isProcessAttempt : Attempt → Bool
  | .processRun _ => true
  | .structured _ => false

/-- Number of process-transport attempts in a trace. -/
def countProcess (tr : List Attempt) : Nat :=
  (tr.filter isProcessAttempt).length

/-- The timeout argument (seconds) granted to an attempt. -/
def attemptTimeout : Attempt → Nat
  | .structured t => t
  | .processRun t => t

/-- Sum of the timeout budgets granted to the attempts of a trace. -/
def totalTimeoutBudget (tr : List Attempt) : Nat :=
  (tr.map attemptTimeout).sum

/-- Structured-transport outcome that the code treats as recoverable
(falls through to the process transport): a raised request exception, a
non-200 status, or a 200 body on which `.json()` raises.  A 200 body that
parses but lacks the `response` field is NOT here: the code returns an
unexpected-format message for it directly. -/
def recoverableStructuredFailure : HttpOutcome → Bool
  | .connectionError _ => true
  | .response r =>
      if r.statusCode = 200 then r.payload.isNone else true

/-- Whether the structured block falls through to the subprocess method:
`requests` is not importable, or the structured attempt failed
recoverably. -/
def structuredPassesThrough (env : Env) : Bool :=
  !env.requestsAvailable || recoverableStructuredFailure env.http

/-- Modelled from the spec (claim C8's amended wording): truthiness of the
availability check as a function of the listing outcome — true exactly
when the listing exits 0 and the model name occurs in its stdout. -/
def check_model_spec (bot : ChatBot) : ProcOutcome → Bool
  | .completed r => decide (r.returncode = 0) && strContains r.stdout bot.model_name
  | _ => false

/-!
`ChatWorker` (lines 118-133): a single `QThread` object reused across
sends.  `process_message` stores the message and calls `start()`; by
Qt's documented semantics `QThread.start` does nothing when the thread
is already running.  `run` sleeps, computes the response, and emits
`response_ready` exactly once, after which the thread is no longer
running.  We model the observable scheduling as a discrete event
sequence: a `submit` event is a `process_message` call, a `complete`
event is a running `run` reaching its `emit` and finishing.  The state
counts accepted submits, started runs, and fired callbacks.
-/

/-- Observable state of one `ChatWorker` instance. -/
structure WorkerState where
  running : Bool
  user_message : String
  submitsAccepted : Nat
  runsStarted : Nat
  callbacksFired : Nat
deriving DecidableEq, Repr

/-- A fresh `ChatWorker(chatbot)`. -/
def initialWorker : WorkerState :=
  { running := false, user_message := "", submitsAccepted := 0,
    runsStarted := 0, callbacksFired := 0 }

/-- `ChatWorker.process_message` (lines 126-128): store the message, then
`start()` — which launches `run` only if the thread is not already
running (Qt: `start` does nothing on a running thread). -/
def process_message (s : WorkerState) (m : String) : WorkerState :=
  let s1 := { s with user_message := m, submitsAccepted := s.submitsAccepted + 1 }
  if s1.running then s1
  else { s1 with running := true, runsStarted := s1.runsStarted + 1 }

/-- A running `run` (lines 130-133) reaching its single
`response_ready.emit` and terminating; no effect when no run is in
flight. -/
def runCompletes (s : WorkerState) : WorkerState :=
  if s.running then
    { s with running := false, callbacksFired := s.callbacksFired + 1 }
  else s

/-- Events observable at the worker boundary. -/
inductive WorkerEvent where
  | submit (m : String)
  | complete
deriving DecidableEq, Repr

/-- One event step. -/
def workerStep (s : WorkerState) : WorkerEvent → WorkerState
  | .submit m => process_message s m
  | .complete => runCompletes s

/-- Run a sequence of events from a state. -/
def workerRun (s : WorkerState) (evts : List WorkerEvent) : WorkerState :=
  evts.foldl workerStep s

/-- Whether, starting from `s`, every `submit` of the event sequence
arrives while no run is in flight (no overlapping send). -/
def submitsWhileIdle (s : WorkerState) : List WorkerEvent → Bool
  | [] => true
  | .submit m :: rest => !s.running && submitsWhileIdle (process_message s m) rest
  | .complete :: rest => submitsWhileIdle (runCompletes s) rest

/-! ## Helper lemmas -/

/-- A recoverable structured failure makes the structured block fall
through without a result. -/
theorem structuredAttempt_none_of_recoverable (h : HttpOutcome)
    (hr : recoverableStructuredFailure h = true) : structuredAttempt h = none := by
  cases h with
  | connectionError m => rfl
  | response r =>
      unfold recoverableStructuredFailure at hr
      unfold structuredAttempt
      by_cases h200 : r.statusCode = 200
      · simp only [h200, if_true] at hr ⊢
        rw [Option.isNone_iff_eq_none] at hr
        rw [hr]
      · simp [h200]

/-- The guard in front of the subprocess method evaluates to `none`
whenever the structured block passes through. -/
theorem structuredGate_none (env : Env)
    (hpass : structuredPassesThrough env = true) :
    (if env.requestsAvailable then structuredAttempt env.http else none) = none := by
  unfold structuredPassesThrough at hpass
  cases hreq : env.requestsAvailable with
  | false => simp [hreq]
  | true =>
      rw [hreq] at hpass
      simp only [Bool.not_true, Bool.false_or] at hpass
      simp [structuredAttempt_none_of_recoverable env.http hpass]

/-- Shared normalization lemma: model known, structured transport answers
200 with a `response` field — the run returns `Success` of the stripped
field and a trace holding only the structured attempt. -/
theorem structured_success_run (bot : ChatBot) (env : Env) (msg : String)
    (r : HttpResponse) (obj : List (String × String)) (text : String)
    (hm : isTruthy (check_model bot env.listOutcome) = true)
    (hreq : env.requestsAvailable = true)
    (hhttp : env.http = .response r)
    (hst : r.statusCode = 200)
    (hp : r.payload = some obj)
    (hf : obj.lookup "response" = some text) :
    get_response bot env msg =
      (.success (pyStrip text), [.structured bot.timeout_seconds]) := by
  unfold get_response dispatch_body
  simp [hm, hreq, hhttp, structuredAttempt, hst, hp, hf]

/-- Shared normalization lemma: model known, structured block passes
through, process transport completes — the result is the three-way case
on exit status and stripped stdout. -/
theorem process_completed_run (bot : ChatBot) (env : Env) (msg : String)
    (p : ProcResult)
    (hm : isTruthy (check_model bot env.listOutcome) = true)
    (hpass : structuredPassesThrough env = true)
    (hrun : env.runOutcome = .completed p) :
    (get_response bot env msg).1 =
      (if p.returncode ≠ 0 then
        .failure .processError
          ("Error running Llama model: "
            ++ (if p.stderr ≠ "" then pyStrip p.stderr else "Unknown error"))
      else if pyStrip p.stdout = "" then
        .failure .emptyResponse
          "I\x27m sorry, I couldn\x27t generate a response right now. Please try again."
      else .success (pyStrip p.stdout)) := by
  unfold get_response dispatch_body
  rw [structuredGate_none env hpass]
  simp only [hm, Bool.true_eq_false, if_false, hrun]
  by_cases h1 : p.returncode ≠ 0
  · simp [h1]
  · by_cases h2 : pyStrip p.stdout = "" <;> simp [h1, h2]

/-! ## Claims -/

/-- C2: if the availability check reports the model as not known (falsy
result, covering `False` and Python `None`), `get_response` returns the
model-unavailable failure immediately and the transport trace is empty:
neither the structured nor the process transport is attempted. -/
theorem modelUnknown_short_circuits (bot : ChatBot) (env : Env) (msg : String)
    (h : isTruthy (check_model bot env.listOutcome) = false) :
    get_response bot env msg =
      (.failure .modelUnavailable (modelUnavailableMessage bot), []) := by
  unfold get_response dispatch_body
  simp [h]

/-- Environment for the C2 witness: `ollama list` succeeds but its output
does not mention the model; both transports would succeed were they
tried. -/
def envUnknownModel : Env :=
  { listOutcome := .completed { returncode := 0, stdout := "NAME ID SIZE", stderr := "" },
    requestsAvailable := true,
    http := .response { statusCode := 200,
                        payload := some [("response", "Hello!")], text := "" },
    runOutcome := .completed { returncode := 0, stdout := "Hello!", stderr := "" } }

/-- C2 witness: concrete run of the short-circuit. -/
theorem modelUnknown_short_circuits_witness :
    isTruthy (check_model defaultBot envUnknownModel.listOutcome) = false ∧
    get_response defaultBot envUnknownModel "hi" =
      (.failure .modelUnavailable (modelUnavailableMessage defaultBot), []) :=
  ⟨by decide, modelUnknown_short_circuits defaultBot envUnknownModel "hi" (by decide)⟩

/-- C4: model known, structured transport answers 200 with a payload
carrying the `response` field: the result is `Success` of that text
stripped of surrounding whitespace, and the trace holds only the
structured attempt — the process transport is never started. -/
theorem structuredSuccess_no_fallback (bot : ChatBot) (env : Env) (msg : String)
    (r : HttpResponse) (obj : List (String × String)) (text : String)
    (hm : isTruthy (check_model bot env.listOutcome) = true)
    (hreq : env.requestsAvailable = true)
    (hhttp : env.http = .response r)
    (hst : r.statusCode = 200)
    (hp : r.payload = some obj)
    (hf : obj.lookup "response" = some text) :
    get_response bot env msg =
      (.success (pyStrip text), [.structured bot.timeout_seconds]) :=
  structured_success_run bot env msg r obj text hm hreq hhttp hst hp hf

/-- Environment for the C4 witness: spec scenario A, the structured
transport returns `{"response": "Hello!"}`. -/
def envScenarioA : Env :=
  { listOutcome := .completed { returncode := 0, stdout := "llama3.2:latest abc", stderr := "" },
    requestsAvailable := true,
    http := .response { statusCode := 200,
                        payload := some [("response", "Hello!")], text := "" },
    runOutcome := .completed { returncode := 0, stdout := "ignored", stderr := "" } }

/-- C4 witness: scenario A gives `Success("Hello!")` with no process
attempt. -/
theorem structuredSuccess_no_fallback_witness :
    get_response defaultBot envScenarioA "hi" =
      (.success (pyStrip "Hello!"), [.structured defaultBot.timeout_seconds]) :=
  structuredSuccess_no_fallback defaultBot envScenarioA "hi"
    { statusCode := 200, payload := some [("response", "Hello!")], text := "" }
    [("response", "Hello!")] "Hello!"
    (by decide) rfl rfl rfl rfl rfl

/-- C5: when the model is known, the structured block passes through, and
the process transport completes within its deadline, the result is
normalized exactly by exit status and output: non-zero exit gives a
`ProcessError` carrying the stripped stderr (or `Unknown error` when
stderr is empty); exit 0 with whitespace-only stdout gives
`EmptyResponse`; exit 0 with non-empty stdout gives `Success` of the
stripped stdout. -/
theorem processNormalization (bot : ChatBot) (env : Env) (msg : String)
    (p : ProcResult)
    (hm : isTruthy (check_model bot env.listOutcome) = true)
    (hpass : structuredPassesThrough env = true)
    (hrun : env.runOutcome = .completed p) :
    (get_response bot env msg).1 =
      (if p.returncode ≠ 0 then
        .failure .processError
          ("Error running Llama model: "
            ++ (if p.stderr ≠ "" then pyStrip p.stderr else "Unknown error"))
      else if pyStrip p.stdout = "" then
        .failure .emptyResponse
          "I\x27m sorry, I couldn\x27t generate a response right now. Please try again."
      else .success (pyStrip p.stdout)) :=
  process_completed_run bot env msg p hm hpass hrun

/-- Environment for the C5 witness: spec scenario B, structured transport
unreachable, process exits 0 with stdout `Hi there`. -/
def envScenarioB : Env :=
  { listOutcome := .completed { returncode := 0, stdout := "llama3.2:latest", stderr := "" },
    requestsAvailable := true,
    http := .connectionError "connection refused",
    runOutcome := .completed { returncode := 0, stdout := "Hi there\n", stderr := "" } }

/-- C5 witness: scenario B normalizes to `Success("Hi there")`. -/
theorem processNormalization_witness :
    (get_response defaultBot envScenarioB "hi").1 = .success "Hi there" := by
  rw [processNormalization defaultBot envScenarioB "hi"
      { returncode := 0, stdout := "Hi there\n", stderr := "" }
      (by decide) (by decide) rfl]
  decide

/-- C7: every exception escaping the dispatch body is converted by the
outer handlers into a returned `Failure` value; no exception propagates
past `get_response` to the caller. -/
theorem exceptionsConvertedToFailures (bot : ChatBot) (env : Env) (msg : String)
    (e : PyExn) (tr : List Attempt)
    (h : dispatch_body bot env msg = .error (e, tr)) :
    get_response bot env msg = (handleExn bot e, tr) ∧
    ∃ k d, handleExn bot e = .failure k d := by
  refine ⟨?_, ?_⟩
  · unfold get_response
    rw [h]
  · cases e <;> exact ⟨_, _, rfl⟩

/-- Environment for the C7 witness: the process transport raises
`subprocess.TimeoutExpired`. -/
def envProcessTimeout : Env :=
  { listOutcome := .completed { returncode := 0, stdout := "llama3.2:latest", stderr := "" },
    requestsAvailable := false,
    http := .connectionError "unused",
    runOutcome := .timeoutExpired }

/-- C7 witness: the timeout exception surfaces as the timeout failure
message, not as a crash. -/
theorem exceptionsConvertedToFailures_witness :
    dispatch_body defaultBot envProcessTimeout "hi" =
      .error (.timeoutExpired, [.processRun 120]) ∧
    get_response defaultBot envProcessTimeout "hi" =
      (handleExn defaultBot .timeoutExpired, [.processRun 120]) :=
  ⟨rfl, (exceptionsConvertedToFailures defaultBot envProcessTimeout "hi"
          .timeoutExpired [.processRun 120] rfl).1⟩

/-- C10: when the model is known but `import requests` fails, the
structured transport is never attempted and dispatch proceeds directly to
the process transport: the trace holds exactly one process attempt and no
structured attempt, and no import failure is surfaced to the caller. -/
theorem importErrorSkipsStructured (bot : ChatBot) (env : Env) (msg : String)
    (hm : isTruthy (check_model bot env.listOutcome) = true)
    (hreq : env.requestsAvailable = false) :
    (get_response bot env msg).2 = [.processRun bot.timeout_seconds] := by
  unfold get_response dispatch_body
  simp only [hm, Bool.true_eq_false, if_false, hreq, Bool.false_eq_true, List.nil_append]
  cases env.runOutcome with
  | completed p =>
      by_cases h1 : p.returncode ≠ 0
      · simp [h1]
      · by_cases h2 : pyStrip p.stdout = "" <;> simp [h1, h2]
  | timeoutExpired => rfl
  | fileNotFound => rfl
  | otherError m => rfl

/-- Environment for the C10 witness: `requests` not importable, process
transport available. -/
def envNoRequests : Env :=
  { listOutcome := .completed { returncode := 0, stdout := "models: llama3.2", stderr := "" },
    requestsAvailable := false,
    http := .response { statusCode := 200,
                        payload := some [("response", "ignored")], text := "" },
    runOutcome := .completed { returncode := 0, stdout := "ok", stderr := "" } }

/-- C10 witness: concrete run with `requests` missing attempts only the
process transport. -/
theorem importErrorSkipsStructured_witness :
    (get_response defaultBot envNoRequests "hi").2 =
      [.processRun defaultBot.timeout_seconds] :=
  importErrorSkipsStructured defaultBot envNoRequests "hi" (by decide) rfl

/-- Environment refuting C1: a 200 structured reply whose payload parses
but lacks the `response` field; the process transport would succeed were
it tried. -/
def envMissingField : Env :=
  { listOutcome := .completed { returncode := 0, stdout := "NAME\nllama3.2:latest", stderr := "" },
    requestsAvailable := true,
    http := .response { statusCode := 200, payload := some [("done", "true")], text := "" },
    runOutcome := .completed { returncode := 0, stdout := "hello", stderr := "" } }

/-- C1 counterexample: on a success-status payload missing the textual
response field the code returns the unexpected-format failure directly —
zero process attempts, the structured failure IS the dispatch result,
contradicting the claim that every structured failure triggers exactly
one process attempt. -/
theorem unexpectedFormat_no_fallback :
    get_response defaultBot envMissingField "hi" =
      (.failure .unexpectedFormat "Received unexpected response format from Llama API.",
        [.structured 120]) ∧
    countProcess (get_response defaultBot envMissingField "hi").2 = 0 := by
  constructor <;> decide

/-- C1 amended: if the structured transport fails with a raised request
exception (connection failure or request timeout), a non-success HTTP
status, or a malformed (unparsable) payload, the process transport is
attempted exactly once before a result is returned; a success-status
payload missing the response field, however, is surfaced directly as an
unexpected-format failure with no fallback. -/
theorem recoverableFailure_one_fallback (bot : ChatBot) (env : Env) (msg : String)
    (hm : isTruthy (check_model bot env.listOutcome) = true)
    (hreq : env.requestsAvailable = true)
    (hrec : recoverableStructuredFailure env.http = true) :
    (get_response bot env msg).2 =
      [.structured bot.timeout_seconds, .processRun bot.timeout_seconds] := by
  unfold get_response dispatch_body
  simp only [hm, Bool.true_eq_false, if_false, hreq, if_true,
    structuredAttempt_none_of_recoverable env.http hrec]
  cases env.runOutcome with
  | completed p =>
      by_cases h1 : p.returncode ≠ 0
      · simp [h1]
      · by_cases h2 : pyStrip p.stdout = "" <;> simp [h1, h2]
  | timeoutExpired => rfl
  | fileNotFound => rfl
  | otherError m => rfl

/-- Environment for the C1 amended witness: the structured transport
answers a 500 status. -/
def envServerError : Env :=
  { listOutcome := .completed { returncode := 0, stdout := "llama3.2:latest", stderr := "" },
    requestsAvailable := true,
    http := .response { statusCode := 500, payload := none, text := "boom" },
    runOutcome := .completed { returncode := 0, stdout := "recovered", stderr := "" } }

/-- C1 amended witness: a 500 reply is followed by exactly one process
attempt. -/
theorem recoverableFailure_one_fallback_witness :
    (get_response defaultBot envServerError "hi").2 =
      [.structured defaultBot.timeout_seconds, .processRun defaultBot.timeout_seconds] :=
  recoverableFailure_one_fallback defaultBot envServerError "hi" (by decide) rfl (by decide)

/-- Environment refuting C3: the structured transport answers 200 with an
empty `response` field. -/
def envEmptyField : Env :=
  { listOutcome := .completed { returncode := 0, stdout := "llama3.2:latest", stderr := "" },
    requestsAvailable := true,
    http := .response { statusCode := 200, payload := some [("response", "")], text := "" },
    runOutcome := .completed { returncode := 0, stdout := "x", stderr := "" } }

/-- C3 counterexample: an empty structured `response` field is returned
as `Success("")`, contradicting the claim that a dispatch result is never
the empty string. -/
theorem emptyStructuredSuccess :
    (get_response defaultBot envEmptyField "hi").1 = .success "" := by decide

/-- C3 amended: on the process path an empty (whitespace-only) stdout
surfaces as the empty-response failure, never as an empty success; on the
structured path, however, the code returns `Success` of the stripped
`response` field even when that is empty, so `Success("")` is reachable
via the structured transport. -/
theorem emptyHandling_amended :
    (∀ (bot : ChatBot) (env : Env) (msg : String) (p : ProcResult),
      isTruthy (check_model bot env.listOutcome) = true →
      structuredPassesThrough env = true →
      env.runOutcome = .completed p → p.returncode = 0 → pyStrip p.stdout = "" →
      (get_response bot env msg).1 = .failure .emptyResponse
        "I\x27m sorry, I couldn\x27t generate a response right now. Please try again.") ∧
    (∀ (bot : ChatBot) (env : Env) (msg : String) (r : HttpResponse)
        (obj : List (String × String)) (v : String),
      isTruthy (check_model bot env.listOutcome) = true →
      env.requestsAvailable = true → env.http = .response r → r.statusCode = 200 →
      r.payload = some obj → obj.lookup "response" = some v →
      (get_response bot env msg).1 = .success (pyStrip v)) := by
  constructor
  · intro bot env msg p hm hpass hrun h0 hempty
    rw [process_completed_run bot env msg p hm hpass hrun]
    simp [h0, hempty]
  · intro bot env msg r obj v hm hreq hhttp hst hp hf
    rw [structured_success_run bot env msg r obj v hm hreq hhttp hst hp hf]

/-- Environment for the C3 amended witness, process side: process exits 0
printing only whitespace. -/
def envBlankStdout : Env :=
  { listOutcome := .completed { returncode := 0, stdout := "llama3.2:latest", stderr := "" },
    requestsAvailable := false,
    http := .connectionError "unused",
    runOutcome := .completed { returncode := 0, stdout := " \n ", stderr := "" } }

/-- C3 amended witness: blank process stdout gives the empty-response
failure; an empty structured field gives `Success` of the stripped
(empty) text. -/
theorem emptyHandling_amended_witness :
    (get_response defaultBot envBlankStdout "hi").1 = .failure .emptyResponse
      "I\x27m sorry, I couldn\x27t generate a response right now. Please try again." ∧
    (get_response defaultBot envScenarioA "hello").1 = .success (pyStrip "Hello!") :=
  ⟨emptyHandling_amended.1 defaultBot envBlankStdout "hi"
      { returncode := 0, stdout := " \n ", stderr := "" }
      (by decide) (by decide) rfl rfl (by decide),
   emptyHandling_amended.2 defaultBot envScenarioA "hello"
      { statusCode := 200, payload := some [("response", "Hello!")], text := "" }
      [("response", "Hello!")] "Hello!"
      (by decide) rfl rfl rfl rfl rfl⟩

/-- The transport trace of any run has one of four shapes: no attempt,
structured only, process only, or structured followed by process — each
attempt carrying the full configured timeout. -/
theorem trace_cases (bot : ChatBot) (env : Env) (msg : String) :
    (get_response bot env msg).2 = [] ∨
    (get_response bot env msg).2 = [.structured bot.timeout_seconds] ∨
    (get_response bot env msg).2 = [.processRun bot.timeout_seconds] ∨
    (get_response bot env msg).2 =
      [.structured bot.timeout_seconds, .processRun bot.timeout_seconds] := by
  unfold get_response dispatch_body
  by_cases hm : isTruthy (check_model bot env.listOutcome) = false
  · simp [hm]
  · simp only [hm, if_false]
    cases hreq : env.requestsAvailable with
    | false =>
        simp only [Bool.false_eq_true, if_false, List.nil_append]
        cases env.runOutcome with
        | completed p =>
            by_cases h1 : p.returncode ≠ 0
            · simp [h1]
            · by_cases h2 : pyStrip p.stdout = "" <;> simp [h1, h2]
        | timeoutExpired => simp
        | fileNotFound => simp
        | otherError m => simp
    | true =>
        simp only [if_true]
        cases hs : structuredAttempt env.http with
        | some r => simp
        | none =>
            cases env.runOutcome with
            | completed p =>
                by_cases h1 : p.returncode ≠ 0
                · simp [h1]
                · by_cases h2 : pyStrip p.stdout = "" <;> simp [h1, h2]
            | timeoutExpired => simp
            | fileNotFound => simp
            | otherError m => simp

/-- Environment refuting C6: the structured transport fails, so both
transports are attempted. -/
def envBothAttempt : Env :=
  { listOutcome := .completed { returncode := 0, stdout := "llama3.2:latest", stderr := "" },
    requestsAvailable := true,
    http := .connectionError "connection refused",
    runOutcome := .completed { returncode := 0, stdout := "Hi there", stderr := "" } }

/-- C6 counterexample: with the default 120-second deadline, each of the
two attempts is granted the full 120 seconds, so the total permitted
transport wait is 240 seconds — the budget is reset per attempt, not
shared, and the dispatch is not bounded by the configured deadline. -/
theorem timeoutBudget_reset :
    totalTimeoutBudget (get_response defaultBot envBothAttempt "hi").2 = 240 ∧
    ¬ (totalTimeoutBudget (get_response defaultBot envBothAttempt "hi").2
        ≤ defaultBot.timeout_seconds) := by
  constructor <;> decide

/-- C6 amended: each transport attempt is granted its own timeout equal
to the full configured deadline (not the remaining budget), so the total
permitted transport wait is bounded by twice the deadline rather than by
the deadline itself. -/
theorem perAttemptFullDeadline (bot : ChatBot) (env : Env) (msg : String) :
    ((get_response bot env msg).2).all
        (fun a => attemptTimeout a == bot.timeout_seconds) = true ∧
    totalTimeoutBudget (get_response bot env msg).2 ≤ 2 * bot.timeout_seconds := by
  rcases trace_cases bot env msg with h | h | h | h <;>
    rw [h] <;>
    constructor <;>
    simp [totalTimeoutBudget, attemptTimeout, List.all] <;>
    omega

/-- C8 counterexample: `ollama list` exits with status 1 while its output
does contain the model name — `check_model` falls off the function and
returns Python `None`, not the boolean `False` the claim states, and not
`True` despite the name occurring in the output. -/
theorem checkModel_none_on_nonzero :
    check_model defaultBot
        (.completed { returncode := 1, stdout := "llama3.2:latest", stderr := "" }) = none ∧
    (none : Option Bool) ≠ some false ∧
    strContains "llama3.2:latest" defaultBot.model_name = true := by
  refine ⟨rfl, by decide, by decide⟩

/-- C8 amended: `check_model` never propagates an error — any exception
yields `False` and a non-zero listing exit yields `None` (both falsy) —
and its result is truthy exactly when the listing exits 0 and the model
name occurs in its output. -/
theorem checkModel_failsSoft_truthiness :
    (∀ (bot : ChatBot) (o : ProcOutcome),
      isTruthy (check_model bot o) = check_model_spec bot o) ∧
    (∀ (bot : ChatBot) (r : ProcResult), r.returncode ≠ 0 →
      check_model bot (.completed r) = none) := by
  constructor
  · intro bot o
    cases o with
    | completed r =>
        by_cases h0 : r.returncode = 0
        · by_cases hc : strContains r.stdout bot.model_name = true
          · simp [check_model, check_model_spec, h0, hc, isTruthy]
          · simp [check_model, check_model_spec, h0, hc, isTruthy]
        · simp [check_model, check_model_spec, h0, isTruthy]
    | timeoutExpired => rfl
    | fileNotFound => rfl
    | otherError m => rfl
  · intro bot r h
    simp [check_model, h]

/-- C8 amended witness: a missing engine binary gives a falsy boolean;
exit status 2 gives `None`. -/
theorem checkModel_failsSoft_truthiness_witness :
    isTruthy (check_model defaultBot .fileNotFound)
      = check_model_spec defaultBot .fileNotFound ∧
    check_model defaultBot
      (.completed { returncode := 2, stdout := "", stderr := "" }) = none :=
  ⟨checkModel_failsSoft_truthiness.1 defaultBot .fileNotFound,
   checkModel_failsSoft_truthiness.2 defaultBot
     { returncode := 2, stdout := "", stderr := "" } (by decide)⟩

/-- C9 counterexample: a second submit arrives while the first dispatch
is in flight; `QThread.start` does nothing, so after the one in-flight
run completes, two submits were accepted, every started run has finished
(the worker is idle), yet only one completion callback fired — the
second accepted submit never receives a callback. -/
theorem droppedOverlappingSubmit :
    (workerRun initialWorker [.submit "a", .submit "b", .complete]).submitsAccepted = 2 ∧
    (workerRun initialWorker [.submit "a", .submit "b", .complete]).callbacksFired = 1 ∧
    (workerRun initialWorker [.submit "a", .submit "b", .complete]).running = false := by
  refine ⟨rfl, rfl, rfl⟩

/-- Unfolding lemma: running one more event. -/
theorem workerRun_cons (s : WorkerState) (e : WorkerEvent) (rest : List WorkerEvent) :
    workerRun s (e :: rest) = workerRun (workerStep s e) rest := rfl

/-- Unfolding lemma: a submit event is a `process_message` call. -/
theorem workerStep_submit (s : WorkerState) (m : String) :
    workerStep s (.submit m) = process_message s m := rfl

/-- Unfolding lemma: a completion event is a `runCompletes` transition. -/
theorem workerStep_complete (s : WorkerState) :
    workerStep s .complete = runCompletes s := rfl

/-- Invariant of the worker: fired callbacks plus the in-flight run (if
any) equal the number of started runs. -/
theorem worker_callbacks_started (evts : List WorkerEvent) :
    ∀ s : WorkerState,
      s.callbacksFired + (if s.running then 1 else 0) = s.runsStarted →
      (workerRun s evts).callbacksFired
          + (if (workerRun s evts).running then 1 else 0)
        = (workerRun s evts).runsStarted := by
  induction evts with
  | nil => intro s h; exact h
  | cons e rest ih =>
      intro s h
      rw [workerRun_cons]
      cases e with
      | submit m =>
          rw [workerStep_submit]
          apply ih
          unfold process_message
          by_cases hr : s.running <;> simp [hr] at h ⊢ <;> omega
      | complete =>
          rw [workerStep_complete]
          apply ih
          unfold runCompletes
          by_cases hr : s.running <;> simp [hr] at h ⊢ <;> omega

/-- When every submit arrives while the worker is idle, every submit
starts a run. -/
theorem worker_started_submits (evts : List WorkerEvent) :
    ∀ s : WorkerState, submitsWhileIdle s evts = true →
      s.runsStarted = s.submitsAccepted →
      (workerRun s evts).runsStarted = (workerRun s evts).submitsAccepted := by
  induction evts with
  | nil => intro s _ h; exact h
  | cons e rest ih =>
      intro s hidle h
      rw [workerRun_cons]
      cases e with
      | submit m =>
          simp only [submitsWhileIdle, Bool.and_eq_true, Bool.not_eq_true'] at hidle
          rw [workerStep_submit]
          apply ih _ hidle.2
          unfold process_message
          simp [hidle.1, h]
      | complete =>
          simp only [submitsWhileIdle] at hidle
          rw [workerStep_complete]
          apply ih _ hidle
          unfold runCompletes
          by_cases hr : s.running <;> simp [hr, h]

/-- C9 amended: exactly-once delivery holds only for non-overlapping
sends — when every accepted submit arrives while no dispatch is in
flight and every started run completes, the completion callback fires
exactly once per accepted submit; an overlapping submit is silently
dropped by `QThread.start` and receives no callback. -/
theorem exactlyOnce_when_idleSubmits (evts : List WorkerEvent)
    (hidle : submitsWhileIdle initialWorker evts = true)
    (hfin : (workerRun initialWorker evts).running = false) :
    (workerRun initialWorker evts).callbacksFired =
      (workerRun initialWorker evts).submitsAccepted := by
  have h1 := worker_callbacks_started evts initialWorker rfl
  have h2 := worker_started_submits evts initialWorker hidle rfl
  simp [hfin] at h1
  omega

/-- C9 amended witness: two sequential sends, each completing before the
next, yield exactly two callbacks. -/
theorem exactlyOnce_when_idleSubmits_witness :
    submitsWhileIdle initialWorker
        [.submit "a", .complete, .submit "b", .complete] = true ∧
    (workerRun initialWorker
        [.submit "a", .complete, .submit "b", .complete]).running = false ∧
    (workerRun initialWorker
        [.submit "a", .complete, .submit "b", .complete]).callbacksFired =
      (workerRun initialWorker
        [.submit "a", .complete, .submit "b", .complete]).submitsAccepted :=
  ⟨by decide, by decide,
   exactlyOnce_when_idleSubmits [.submit "a", .complete, .submit "b", .complete]
     (by decide) (by decide)⟩

end Chatbot
